import Mathlib

/-
  Verification development for the p5-python image compositing pipeline.

  The repository code (src/composite.py, src/displacement.py, src/main.py)
  is shallowly embedded below.  Pixel channels are modelled as exact
  rationals on the 0..255 scale.  The underlying image-buffer toolkit
  (resize, Gaussian blur, colorspace conversion, normalize, the pointwise
  blend operators, the gamma power curve and the interpolating sampler
  used by the displace operator) is an external collaborator of this
  repository; it is modelled as an explicit Toolkit parameter whose fields
  carry only the two contracts every real toolkit satisfies: the power
  curve at gamma 1 is the identity, and interpolating exactly at an
  integer sample point returns that pixel.
-/

namespace P5

/-- One RGBA pixel, channels on the 0..255 quantum scale. -/
structure Pix where
  r : ℚ
  g : ℚ
  b : ℚ
  a : ℚ
deriving DecidableEq

/-- An image buffer: width, height and a pixel function (content outside
the width x height window is irrelevant). -/
structure Img where
  width : ℕ
  height : ℕ
  pix : ℕ → ℕ → Pix

theorem Img.ext2 {p q : Img} (hw : p.width = q.width) (hh : p.height = q.height)
    (hp : ∀ x y, p.pix x y = q.pix x y) : p = q := by
  cases p
  cases q
  simp only at hw hh
  subst hw
  subst hh
  have : (fun x y => Img.pix ⟨_, _, _⟩ x y) = _ := funext fun x => funext fun y => hp x y
  simpa using this

/-- The closed set of pointwise blend operators the source selects by name. -/
inductive BlendOp
  | over
  | multiply
  | overlay
  | hardLight
  | difference
  | copyOpacity
deriving DecidableEq

/-- The external image-buffer toolkit (spec section 1 excludes it as an
already-correct collaborator).  Pointwise and whole-image primitives are
abstract fields; the two proof fields are the only contracts assumed. -/
structure Toolkit where
  resizePix : Img → ℕ → ℕ → ℕ → ℕ → Pix
  blurPix : Img → ℚ → ℕ → ℕ → Pix
  grayPix : Pix → Pix
  normalizePix : Img → ℕ → ℕ → Pix
  blendPix : BlendOp → Pix → Pix → Pix
  newCanvasPix : Pix
  interp : Img → ℚ → ℚ → Pix
  gpow : ℚ → ℚ → ℚ
  sigmoidalContrast : Img → ℚ → Img
  modulate : Img → ℚ → Img
  interp_int : ∀ (img : Img) (x y : ℕ), interp img (x : ℚ) (y : ℚ) = img.pix x y
  gpow_one : ∀ x : ℚ, gpow x 1 = x

/-- Resize always yields the requested dimensions; resampled content is
toolkit-determined. -/
def resize (tk : Toolkit) (img : Img) (w h : ℕ) : Img :=
  ⟨w, h, fun x y => tk.resizePix img w h x y⟩

/-- Gaussian blur preserves dimensions. -/
def gaussianBlur (tk : Toolkit) (img : Img) (radius : ℚ) : Img :=
  ⟨img.width, img.height, fun x y => tk.blurPix img radius x y⟩

/-- transform_colorspace gray: a pointwise luminance conversion. -/
def grayscale (tk : Toolkit) (img : Img) : Img :=
  ⟨img.width, img.height, fun x y => tk.grayPix (img.pix x y)⟩

/-- normalize: a global min max stretch, dimension preserving. -/
def normalize (tk : Toolkit) (img : Img) : Img :=
  ⟨img.width, img.height, fun x y => tk.normalizePix img x y⟩

/-- A freshly constructed solid canvas. -/
def solidCanvas (w h : ℕ) (color : Pix) : Img :=
  ⟨w, h, fun _ _ => color⟩

/-- dst.composite(src, operator, left, top): the source is stamped over the
destination window starting at (left, top); destination dimensions are kept
and pixels outside the stamped region are untouched. -/
def compositeAt (tk : Toolkit) (dst src : Img) (op : BlendOp) (left top : ℕ) : Img :=
  ⟨dst.width, dst.height, fun x y =>
    if left ≤ x ∧ x < left + src.width ∧ top ≤ y ∧ y < top + src.height then
      tk.blendPix op (dst.pix x y) (src.pix (x - left) (y - top))
    else dst.pix x y⟩

/-- Clamp a channel value to the valid quantum range. -/
def qclamp (v : ℚ) : ℚ := min (max v 0) 255

/-- evaluate subtract value: quantum subtraction on the color channels. -/
def evaluateSubtract (img : Img) (v : ℚ) : Img :=
  ⟨img.width, img.height, fun x y =>
    let p := img.pix x y
    ⟨qclamp (p.r - v), qclamp (p.g - v), qclamp (p.b - v), p.a⟩⟩

/-- evaluate multiply value: quantum multiplication on the color channels. -/
def evaluateMultiply (img : Img) (v : ℚ) : Img :=
  ⟨img.width, img.height, fun x y =>
    let p := img.pix x y
    ⟨qclamp (p.r * v), qclamp (p.g * v), qclamp (p.b * v), p.a⟩⟩

/-- transparentize(t): skipped when t = 0 (the wand guard), otherwise
subtracts t times the full quantum range from the alpha channel. -/
def transparentize (img : Img) (t : ℚ) : Img :=
  if t = 0 then img
  else ⟨img.width, img.height, fun x y =>
    let p := img.pix x y
    ⟨p.r, p.g, p.b, qclamp (p.a - t * 255)⟩⟩

/-- background_color plus alpha_channel remove: flatten every pixel over
the given background color, ending fully opaque. -/
def removeAlpha (img : Img) (bgc : Pix) : Img :=
  ⟨img.width, img.height, fun x y =>
    let p := img.pix x y
    ⟨p.a / 255 * p.r + (1 - p.a / 255) * bgc.r,
     p.a / 255 * p.g + (1 - p.a / 255) * bgc.g,
     p.a / 255 * p.b + (1 - p.a / 255) * bgc.b, 255⟩⟩

/-- crop(width, height) from the top-left corner: clipped to the current
image bounds. -/
def crop (img : Img) (w h : ℕ) : Img :=
  ⟨min w img.width, min h img.height, img.pix⟩

/-- Mean intensity of a pixel, driving the displace operator. -/
def Pix.intensity (p : Pix) : ℚ := (p.r + p.g + p.b) / 3

/-- Named color grey48. -/
def grey48 : Pix := ⟨122, 122, 122, 255⟩

/-- Named color gray50 / grey50, the neutral mid-gray fill. -/
def gray50 : Pix := ⟨127, 127, 127, 255⟩

/-- Python int(n * scale_factor): truncation, which equals the floor for a
nonnegative product. -/
def scaledDim (n : ℕ) (s : ℚ) : ℕ := (⌊(n : ℚ) * s⌋).toNat

/-- create_tiled_texture (src/composite.py lines 4-38).  The scaled texture
dimensions come from int() truncation with no lower clamp; when either is 0
the resize call and the ceiling divisions raise, modelled as none.  A fresh
target-sized canvas is stamped with the scaled texture at every grid
position (wand composite, default operator over), then cropped. -/
def create_tiled_texture (tk : Toolkit) (texture : Img) (target_width target_height : ℕ)
    (scale_factor : ℚ) : Option Img :=
  let texture_width := scaledDim texture.width scale_factor
  let texture_height := scaledDim texture.height scale_factor
  if texture_width = 0 ∨ texture_height = 0 ∨ target_width = 0 ∨ target_height = 0 then
    none
  else
    let scaled_texture := resize tk texture texture_width texture_height
    let cols := (target_width + texture_width - 1) / texture_width
    let rows := (target_height + texture_height - 1) / texture_height
    let positions := (List.range rows).flatMap fun y => (List.range cols).map fun x => (x, y)
    let tiled := positions.foldl
      (fun acc xy =>
        compositeAt tk acc scaled_texture BlendOp.over (xy.1 * texture_width) (xy.2 * texture_height))
      (solidCanvas target_width target_height tk.newCanvasPix)
    some (crop tiled target_width target_height)

/-- The fresh depth copy made inside displacement_mapping: the depth image
loaded from its file, resized to the dimensions of the original. -/
def displacement_mapping_used_depth (tk : Toolkit) (original depth : Img) : Img :=
  resize tk depth original.width original.height

/-- displacement_mapping (src/displacement.py lines 5-32).  The freshly
loaded depth copy is resized to the original dimensions, then the displace
composite samples the original at per-pixel offsets proportional to
strength and the normalized depth intensity. -/
def displacement_mapping (tk : Toolkit) (original depth : Img) (strength : ℚ) : Img :=
  let d := displacement_mapping_used_depth tk original depth
  ⟨original.width, original.height, fun x y =>
    let dv := (d.pix x y).intensity
    tk.interp original ((x : ℚ) + strength * (dv / 255 - 1 / 2))
      ((y : ℚ) + strength * (dv / 255 - 1 / 2))⟩

/-- The depth-derived buffer built inside generate_lighting_map before it
is stamped onto the light-color canvas: clone the depth map, multiply in
the normalized background luminance, subtract the lighting strength, then
flatten the alpha over grey50.  Note the clone keeps the depth dimensions;
no resize to the background occurs. -/
def glm_inner (tk : Toolkit) (depth_map background : Img) (lighting_strength : ℚ) : Img :=
  let bg_lighting := normalize tk (grayscale tk background)
  let lighting_map := compositeAt tk depth_map bg_lighting BlendOp.multiply 0 0
  removeAlpha (evaluateSubtract lighting_map lighting_strength) gray50

/-- generate_lighting_map (src/composite.py lines 77-112). -/
def generate_lighting_map (tk : Toolkit) (depth_map background mask : Img)
    (lighting_strength : ℚ) (light_color : Pix) : Img :=
  let lighting_map := glm_inner tk depth_map background lighting_strength
  let light_layer := solidCanvas background.width background.height light_color
  let l2 := compositeAt tk light_layer lighting_map BlendOp.multiply 0 0
  compositeAt tk l2 mask BlendOp.copyOpacity 0 0

/-- One channel of the level tone curve: map the black..white input range
to 0..1, apply the toolkit gamma power curve, rescale and clamp. -/
def levelChan (tk : Toolkit) (black white gamma v : ℚ) : ℚ :=
  qclamp (255 * tk.gpow ((v / 255 - black) / (white - black)) gamma)

/-- image.level applied to every channel. -/
def levelImg (tk : Toolkit) (img : Img) (black white gamma : ℚ) : Img :=
  ⟨img.width, img.height, fun x y =>
    let p := img.pix x y
    ⟨levelChan tk black white gamma p.r, levelChan tk black white gamma p.g,
     levelChan tk black white gamma p.b, levelChan tk black white gamma p.a⟩⟩

/-- adjust_levels (src/composite.py lines 114-151): level curve always,
then sigmoidal contrast only when contrast differs from 1, then modulate
only when lightness differs from 0. -/
def adjust_levels (tk : Toolkit) (image : Img)
    (black_point white_point gamma contrast lightness : ℚ) : Img :=
  let adjusted := levelImg tk image (black_point / 100) (white_point / 100) gamma
  let adjusted2 := if contrast = 1 then adjusted else tk.sigmoidalContrast adjusted (contrast * 3)
  if lightness = 0 then adjusted2 else tk.modulate adjusted2 (100 + lightness)

/-- tint_masked_area (src/composite.py lines 153-175). -/
def tint_masked_area (tk : Toolkit) (background mask : Img)
    (black_point white_point gamma contrast lightness : ℚ) : Img :=
  let bw_bg := adjust_levels tk (grayscale tk background)
    black_point white_point gamma contrast lightness
  let bw_masked := compositeAt tk bw_bg mask BlendOp.copyOpacity 0 0
  compositeAt tk background bw_masked BlendOp.over 0 0

/-- extract_high_frequency (src/composite.py lines 177-208). -/
def extract_high_frequency (tk : Toolkit) (image mask : Img) (blur_radius : ℚ) : Img :=
  let high_freq := grayscale tk image
  let blurred := gaussianBlur tk high_freq blur_radius
  let hf2 := compositeAt tk high_freq blurred BlendOp.difference 0 0
  let hf3 := normalize tk hf2
  let gray_bg := solidCanvas image.width image.height gray50
  let g2 := compositeAt tk gray_bg hf3 BlendOp.overlay 0 0
  compositeAt tk g2 mask BlendOp.copyOpacity 0 0

/-- The detail layer of the lit composite: high-frequency extraction from
the background and mask at the default blur radius 0.5, taken before any
tonal modification (no tonal parameter reaches it). -/
def composite_detail_layer (tk : Toolkit) (background mask : Img) : Img :=
  extract_high_frequency tk background mask (1 / 2)

/-- The adjusted lighting layer of the lit composite: the lighting map
after transparentize(1 - lighting_strength). -/
def cwl_adjusted_lighting (lighting_map : Img) (lighting_strength : ℚ) : Img :=
  transparentize lighting_map (1 - lighting_strength)

/-- composite_with_lighting (src/composite.py lines 210-251). -/
def composite_with_lighting (tk : Toolkit) (texture background mask lighting_map : Img)
    (lighting_strength black_point white_point gamma contrast lightness detail_strength : ℚ) :
    Img :=
  let high_freq := composite_detail_layer tk background mask
  let background2 := tint_masked_area tk background mask
    black_point white_point gamma contrast lightness
  let masked_texture := compositeAt tk texture mask BlendOp.copyOpacity 0 0
  let adjusted_lighting := cwl_adjusted_lighting lighting_map lighting_strength
  let result := compositeAt tk background2 adjusted_lighting BlendOp.hardLight 0 0
  let result2 := compositeAt tk result masked_texture BlendOp.multiply 0 0
  if 0 < detail_strength then
    compositeAt tk result2 (evaluateMultiply high_freq detail_strength) BlendOp.overlay 0 0
  else result2

/-- composite_with_lighting with the detail-overlay block (src/composite.py
lines 244-249) removed, for comparison against the detail_strength = 0 run. -/
def composite_with_lighting_skip_detail (tk : Toolkit)
    (texture background mask lighting_map : Img)
    (lighting_strength black_point white_point gamma contrast lightness : ℚ) : Img :=
  let background2 := tint_masked_area tk background mask
    black_point white_point gamma contrast lightness
  let masked_texture := compositeAt tk texture mask BlendOp.copyOpacity 0 0
  let adjusted_lighting := cwl_adjusted_lighting lighting_map lighting_strength
  let result := compositeAt tk background2 adjusted_lighting BlendOp.hardLight 0 0
  compositeAt tk result masked_texture BlendOp.multiply 0 0

/-- The depth cache: content hash of the background pixel bytes to the
stored depth buffer, newest entry first. -/
abbrev Cache := List (ℕ × Img)

/-- Association lookup in the cache directory. -/
def cacheLookup : Cache → ℕ → Option Img
  | [], _ => none
  | (k, v) :: rest, h => if k = h then some v else cacheLookup rest h

/-- get_cached_depth_map (src/main.py lines 33-43). -/
def get_cached_depth_map (hash : Img → ℕ) (cache : Cache) (background : Img) : Option Img :=
  cacheLookup cache (hash background)

/-- save_depth_map (src/main.py lines 46-51). -/
def save_depth_map (hash : Img → ℕ) (cache : Cache) (depth_map background : Img) : Cache :=
  (hash background, depth_map) :: cache

/-- Result of the depth-provider path: the depth buffer, the cache after
the call, and whether the depth model was invoked. -/
structure DepthFetch where
  depth : Img
  cache : Cache
  invoked : Bool

/-- The depth-provider path of the orchestrator (src/main.py lines
186-191): consult the cache, otherwise invoke the model and store the
result. -/
def fetch_depth (model : Img → Img) (hash : Img → ℕ) (cache : Cache) (background : Img) :
    DepthFetch :=
  match get_cached_depth_map hash cache background with
  | some d => ⟨d, cache, false⟩
  | none => ⟨model background, save_depth_map hash cache (model background) background, true⟩

/-- The depth buffer the orchestrator hands to both the displacement and
the lighting stages: the provider result, Gaussian blurred when
blur_radius is positive. -/
def ace_depth (tk : Toolkit) (model : Img → Img) (hash : Img → ℕ) (cache : Cache)
    (background : Img) (blur_radius : ℚ) : Img :=
  let d0 := (fetch_depth model hash cache background).depth
  if 0 < blur_radius then gaussianBlur tk d0 blur_radius else d0

/-- The texture entering the displacement stage: tiled to the background
dimensions when tiling is requested, otherwise the texture itself. -/
def ace_textureOpt (tk : Toolkit) (texture background : Img) (tile : Bool)
    (texture_scale : ℚ) : Option Img :=
  if tile then create_tiled_texture tk texture background.width background.height texture_scale
  else some texture

/-- The pipeline stages of apply_combined_effects, in execution order. -/
inductive Stage
  | depth
  | displacement
  | lighting
  | composition
deriving DecidableEq

/-- Outcome of one apply_combined_effects run: the stages that started, the
final composite when every stage succeeded, and the cache afterwards. -/
structure AceResult where
  stages : List Stage
  result : Option Img
  cache : Cache

/-- apply_combined_effects (src/main.py lines 126-281).  The only explicit
validation is the presence check on the three images (line 159); the depth
provider, displacement (with optional tiling), lighting synthesis and final
composition then run in order, any stage failure aborting the run.  The
lighting map call passes only depth, background and mask, so the defaults
lighting_strength 0.5 and light_color grey48 apply. -/
def apply_combined_effects (tk : Toolkit) (model : Img → Img) (hash : Img → ℕ) (cache : Cache)
    (texture_image background_image mask_image : Option Img)
    (texture_scale : ℚ) (tile_texture : Bool)
    (displacement_strength blur_radius lighting_strength black_point white_point gamma
      contrast lightness detail_strength : ℚ) : AceResult :=
  match texture_image, background_image, mask_image with
  | some texture, some background, some mask =>
    let cache2 := (fetch_depth model hash cache background).cache
    let depth := ace_depth tk model hash cache background blur_radius
    match ace_textureOpt tk texture background tile_texture texture_scale with
    | none => ⟨[Stage.depth, Stage.displacement], none, cache2⟩
    | some tex2 =>
      let displaced := displacement_mapping tk tex2 depth displacement_strength
      let lighting_map := generate_lighting_map tk depth background mask (1 / 2) grey48
      ⟨[Stage.depth, Stage.displacement, Stage.lighting, Stage.composition],
       some (composite_with_lighting tk displaced background mask lighting_map
         lighting_strength black_point white_point gamma contrast lightness detail_strength),
       cache2⟩
  | _, _, _ => ⟨[], none, cache⟩

/-- A pixel whose channels all lie in the valid 0..255 quantum range. -/
def Pix.valid (p : Pix) : Prop :=
  0 ≤ p.r ∧ p.r ≤ 255 ∧ 0 ≤ p.g ∧ p.g ≤ 255 ∧
  0 ≤ p.b ∧ p.b ≤ 255 ∧ 0 ≤ p.a ∧ p.a ≤ 255

/-- An image whose pixels are all in the valid quantum range. -/
def Img.valid (img : Img) : Prop := ∀ x y, Pix.valid (img.pix x y)

/-- A concrete lawful toolkit instance used to instantiate theorems on
concrete inputs. -/
def tk0 : Toolkit where
  resizePix := fun _ _ _ _ _ => gray50
  blurPix := fun _ _ _ _ => gray50
  grayPix := fun p => p
  normalizePix := fun img x y => img.pix x y
  blendPix := fun _ d _ => d
  newCanvasPix := ⟨0, 0, 0, 0⟩
  interp := fun img x y =>
    if 0 ≤ x ∧ 0 ≤ y then img.pix (⌊x⌋).toNat (⌊y⌋).toNat else gray50
  gpow := fun x _ => x
  sigmoidalContrast := fun img _ => img
  modulate := fun img _ => img
  interp_int := by
    intro img x y
    have hx : (0 : ℚ) ≤ (x : ℚ) := by positivity
    have hy : (0 : ℚ) ≤ (y : ℚ) := by positivity
    simp [hx, hy, Int.floor_natCast]
  gpow_one := fun _ => rfl

/-- A concrete 10 by 10 texture. -/
def tex10 : Img := solidCanvas 10 10 ⟨99, 99, 99, 255⟩

/-- A concrete 2 by 2 texture. -/
def texC : Img := solidCanvas 2 2 ⟨200, 10, 10, 255⟩

/-- A concrete 4 by 4 background. -/
def bgC : Img := solidCanvas 4 4 ⟨50, 100, 150, 255⟩

/-- A concrete 4 by 4 full-white mask. -/
def maskC : Img := solidCanvas 4 4 ⟨255, 255, 255, 255⟩

/-- A concrete 3 by 2 depth buffer, deliberately not background sized. -/
def depthC : Img := solidCanvas 3 2 ⟨80, 80, 80, 255⟩

/-- A concrete 1 by 1 fully opaque lighting map. -/
def lmC : Img := solidCanvas 1 1 ⟨127, 127, 127, 255⟩

/-- A concrete depth model producing a fixed 4 by 4 gray buffer. -/
def model0 : Img → Img := fun _ => solidCanvas 4 4 gray50

/-- A concrete content hash. -/
def hash0 : Img → ℕ := fun _ => 0

/-- Claim C5: displacement mapping with strength 0 returns an image
pixel-identical to the source image, for every source and depth buffer. -/
theorem displacement_zero_identity (tk : Toolkit) (original depth : Img) :
    displacement_mapping tk original depth 0 = original := by
  refine Img.ext2 rfl rfl ?_
  intro x y
  simp only [displacement_mapping, zero_mul, add_zero]
  exact tk.interp_int original x y

/-- Claim C7: composite_with_lighting factors so that the layer overlaid in
the final detail step is exactly extract_high_frequency applied to the raw
background argument (composite_detail_layer takes no tonal parameter), so
the detail layer is independent of black point, white point, gamma,
contrast and lightness. -/
theorem detail_layer_from_untouched_background (tk : Toolkit)
    (texture background mask lighting_map : Img)
    (lighting_strength black_point white_point gamma contrast lightness detail_strength : ℚ) :
    composite_with_lighting tk texture background mask lighting_map
        lighting_strength black_point white_point gamma contrast lightness detail_strength =
      if 0 < detail_strength then
        compositeAt tk
          (composite_with_lighting_skip_detail tk texture background mask lighting_map
            lighting_strength black_point white_point gamma contrast lightness)
          (evaluateMultiply (composite_detail_layer tk background mask) detail_strength)
          BlendOp.overlay 0 0
      else
        composite_with_lighting_skip_detail tk texture background mask lighting_map
          lighting_strength black_point white_point gamma contrast lightness := rfl

/-- Claim C8 (amended): depth is resized only at the displacement use
site, where the fresh copy gets exactly the source dimensions and the
displaced output keeps the source dimensions; the lighting-map use site
clones depth without any resize, its depth-derived buffer keeping the
depth buffer dimensions. -/
theorem depth_resize_fresh_copies :
    (∀ (tk : Toolkit) (original depth : Img),
      (displacement_mapping_used_depth tk original depth).width = original.width ∧
      (displacement_mapping_used_depth tk original depth).height = original.height) ∧
    (∀ (tk : Toolkit) (original depth : Img) (strength : ℚ),
      (displacement_mapping tk original depth strength).width = original.width ∧
      (displacement_mapping tk original depth strength).height = original.height) ∧
    (∀ (tk : Toolkit) (depth background : Img) (lighting_strength : ℚ),
      (glm_inner tk depth background lighting_strength).width = depth.width ∧
      (glm_inner tk depth background lighting_strength).height = depth.height) :=
  ⟨fun _ _ _ => ⟨rfl, rfl⟩, fun _ _ _ _ => ⟨rfl, rfl⟩, fun _ _ _ _ => ⟨rfl, rfl⟩⟩

/-- Claim C8 counterexample: with a 3 by 2 depth buffer paired against a
4 by 4 background, the depth-derived buffer inside generate_lighting_map
keeps width 3, so no resized-to-match copy is produced at that use site. -/
theorem lighting_map_depth_not_resized :
    (glm_inner tk0 depthC bgC (1 / 2)).width ≠ bgC.width := by decide

/-- Claim C9: running the depth-provider path twice with the same
background yields a cache hit on the second call (the depth model is not
invoked) and the identical depth buffer both times. -/
theorem depth_cache_second_call_hits (model : Img → Img) (hash : Img → ℕ) (cache : Cache)
    (background : Img) :
    (fetch_depth model hash (fetch_depth model hash cache background).cache
        background).invoked = false ∧
    (fetch_depth model hash (fetch_depth model hash cache background).cache
        background).depth = (fetch_depth model hash cache background).depth := by
  unfold fetch_depth get_cached_depth_map save_depth_map
  cases h : cacheLookup cache (hash background) with
  | some d => simp [h]
  | none => simp [h, cacheLookup]

/-- Claim C10: the orchestrator builds the lighting map with the
generate_lighting_map defaults, strength one half and color grey48, and
the lighting_strength argument of the run reaches only the final
composite_with_lighting call. -/
theorem lighting_map_uses_default_params (tk : Toolkit) (model : Img → Img) (hash : Img → ℕ)
    (cache : Cache) (texture background mask : Img) (texture_scale : ℚ) (tile_texture : Bool)
    (displacement_strength blur_radius lighting_strength black_point white_point gamma
      contrast lightness detail_strength : ℚ) :
    (apply_combined_effects tk model hash cache (some texture) (some background) (some mask)
        texture_scale tile_texture displacement_strength blur_radius lighting_strength
        black_point white_point gamma contrast lightness detail_strength).result =
      (ace_textureOpt tk texture background tile_texture texture_scale).map fun tex2 =>
        composite_with_lighting tk
          (displacement_mapping tk tex2
            (ace_depth tk model hash cache background blur_radius) displacement_strength)
          background mask
          (generate_lighting_map tk (ace_depth tk model hash cache background blur_radius)
            background mask (1 / 2) grey48)
          lighting_strength black_point white_point gamma contrast lightness detail_strength := by
  unfold apply_combined_effects
  cases h : ace_textureOpt tk texture background tile_texture texture_scale <;> simp [h]

/-- Claim C6: with detail_strength 0 the lit composite is identical to the
run with the detail-overlay block removed, and with positive
detail_strength the detail layer is intensity-scaled by detail_strength
and overlay-blended onto the result. -/
theorem detail_strength_zero_skips_overlay :
    (∀ (tk : Toolkit) (texture background mask lighting_map : Img)
      (lighting_strength black_point white_point gamma contrast lightness : ℚ),
      composite_with_lighting tk texture background mask lighting_map
          lighting_strength black_point white_point gamma contrast lightness 0 =
        composite_with_lighting_skip_detail tk texture background mask lighting_map
          lighting_strength black_point white_point gamma contrast lightness) ∧
    (∀ (tk : Toolkit) (texture background mask lighting_map : Img)
      (lighting_strength black_point white_point gamma contrast lightness detail_strength : ℚ),
      0 < detail_strength →
      composite_with_lighting tk texture background mask lighting_map
          lighting_strength black_point white_point gamma contrast lightness detail_strength =
        compositeAt tk
          (composite_with_lighting_skip_detail tk texture background mask lighting_map
            lighting_strength black_point white_point gamma contrast lightness)
          (evaluateMultiply (composite_detail_layer tk background mask) detail_strength)
          BlendOp.overlay 0 0) := by
  constructor
  · intro tk texture background mask lighting_map ls bp wp g c l
    simp [composite_with_lighting, composite_with_lighting_skip_detail]
  · intro tk texture background mask lighting_map ls bp wp g c l ds hds
    simp [composite_with_lighting, composite_with_lighting_skip_detail, if_pos hds]

/-- Claim C6 witness: the two parts of the theorem instantiated on
concrete buffers, with detail strengths 0 and 1. -/
theorem detail_strength_zero_skips_overlay_witness :
    composite_with_lighting tk0 texC bgC maskC lmC 0 0 100 1 1 0 0 =
      composite_with_lighting_skip_detail tk0 texC bgC maskC lmC 0 0 100 1 1 0 ∧
    composite_with_lighting tk0 texC bgC maskC lmC 0 0 100 1 1 0 1 =
      compositeAt tk0 (composite_with_lighting_skip_detail tk0 texC bgC maskC lmC 0 0 100 1 1 0)
        (evaluateMultiply (composite_detail_layer tk0 bgC maskC) 1) BlendOp.overlay 0 0 :=
  ⟨detail_strength_zero_skips_overlay.1 tk0 texC bgC maskC lmC 0 0 100 1 1 0,
   detail_strength_zero_skips_overlay.2 tk0 texC bgC maskC lmC 0 0 100 1 1 0 1 (by norm_num)⟩

theorem levelChan_neutral (tk : Toolkit) (v : ℚ) (h0 : 0 ≤ v) (h1 : v ≤ 255) :
    levelChan tk 0 1 1 v = v := by
  unfold levelChan
  rw [show (v / 255 - 0) / (1 - 0) = v / 255 by ring, tk.gpow_one,
    show (255 : ℚ) * (v / 255) = v by field_simp]
  unfold qclamp
  rw [max_eq_left h0, min_eq_left h1]

/-- Claim C4: adjust_levels with all-neutral parameters (black 0, white
100, gamma 1, contrast 1, lightness 0) is pixel-identical to the input,
the contrast and lightness steps being skipped by their guards. -/
theorem adjust_levels_neutral_identity (tk : Toolkit) (img : Img) (hv : Img.valid img) :
    adjust_levels tk img 0 100 1 1 0 = img := by
  unfold adjust_levels
  norm_num
  refine Img.ext2 rfl rfl ?_
  intro x y
  obtain ⟨hr0, hr1, hg0, hg1, hb0, hb1, ha0, ha1⟩ := hv x y
  simp only [levelImg]
  rw [levelChan_neutral tk _ hr0 hr1, levelChan_neutral tk _ hg0 hg1,
    levelChan_neutral tk _ hb0 hb1, levelChan_neutral tk _ ha0 ha1]

/-- Claim C4 witness: the identity evaluated on a concrete valid image. -/
theorem adjust_levels_neutral_identity_witness :
    adjust_levels tk0 (solidCanvas 2 2 ⟨10, 20, 30, 255⟩) 0 100 1 1 0 =
      solidCanvas 2 2 ⟨10, 20, 30, 255⟩ :=
  adjust_levels_neutral_identity tk0 (solidCanvas 2 2 ⟨10, 20, 30, 255⟩)
    (by intro x y; refine ⟨?_, ?_, ?_, ?_, ?_, ?_, ?_, ?_⟩ <;> norm_num [solidCanvas])

theorem cwl_adjusted_lighting_alpha (lm : Img) (ls : ℚ) (x y : ℕ)
    (h0 : 0 ≤ (lm.pix x y).a) (h1 : (lm.pix x y).a ≤ 255) (hls : ls ≤ 1) :
    ((cwl_adjusted_lighting lm ls).pix x y).a =
      max ((lm.pix x y).a - (1 - ls) * 255) 0 := by
  unfold cwl_adjusted_lighting transparentize
  by_cases h : (1 - ls : ℚ) = 0
  · rw [if_pos h, h]
    rw [zero_mul, sub_zero, max_eq_left h0]
  · rw [if_neg h]
    simp only [Img.pix]
    unfold qclamp
    have hnn : (0 : ℚ) ≤ (1 - ls) * 255 := mul_nonneg (by linarith) (by norm_num)
    exact min_eq_left (max_le (by linarith) (by norm_num))

/-- Claim C2 (amended): in the lit composite the lighting layer goes
through transparentize(1 - lighting_strength), which subtracts
(1 - lighting_strength) times the full quantum range from the per-pixel
alpha (clamped at 0) rather than scaling it; lower lighting_strength still
yields a more transparent layer, and the result is hard-light blended onto
the tinted background before the texture multiply. -/
theorem lighting_opacity_subtractive :
    (∀ (lm : Img) (ls : ℚ) (x y : ℕ),
      0 ≤ (lm.pix x y).a → (lm.pix x y).a ≤ 255 → ls ≤ 1 →
      ((cwl_adjusted_lighting lm ls).pix x y).a =
        max ((lm.pix x y).a - (1 - ls) * 255) 0) ∧
    (∀ (lm : Img) (ls₁ ls₂ : ℚ) (x y : ℕ),
      0 ≤ (lm.pix x y).a → (lm.pix x y).a ≤ 255 → ls₁ ≤ ls₂ → ls₂ ≤ 1 →
      ((cwl_adjusted_lighting lm ls₁).pix x y).a ≤
        ((cwl_adjusted_lighting lm ls₂).pix x y).a) ∧
    (∀ (tk : Toolkit) (texture background mask lighting_map : Img)
      (lighting_strength black_point white_point gamma contrast lightness : ℚ),
      composite_with_lighting_skip_detail tk texture background mask lighting_map
          lighting_strength black_point white_point gamma contrast lightness =
        compositeAt tk
          (compositeAt tk
            (tint_masked_area tk background mask black_point white_point gamma contrast lightness)
            (cwl_adjusted_lighting lighting_map lighting_strength) BlendOp.hardLight 0 0)
          (compositeAt tk texture mask BlendOp.copyOpacity 0 0) BlendOp.multiply 0 0) := by
  refine ⟨fun lm ls x y h0 h1 hls => cwl_adjusted_lighting_alpha lm ls x y h0 h1 hls, ?_, ?_⟩
  · intro lm ls₁ ls₂ x y h0 h1 h12 h2
    rw [cwl_adjusted_lighting_alpha lm ls₁ x y h0 h1 (by linarith),
      cwl_adjusted_lighting_alpha lm ls₂ x y h0 h1 h2]
    exact max_le_max (by linarith) le_rfl
  · intro tk texture background mask lighting_map ls bp wp g c l
    rfl

/-- Claim C2 counterexample: on a fully opaque lighting pixel with
lighting_strength one fifth, the code leaves alpha 51 while scaling the
opacity by 1 - lighting_strength would leave 204. -/
theorem lighting_opacity_not_scaled :
    ((cwl_adjusted_lighting lmC (1 / 5)).pix 0 0).a ≠
      (1 - 1 / 5) * (lmC.pix 0 0).a := by
  norm_num [cwl_adjusted_lighting, transparentize, lmC, solidCanvas, qclamp]

/-- Claim C2 witness: the subtractive alpha formula and its monotonicity
evaluated on a concrete lighting map at strengths one quarter and three
quarters. -/
theorem lighting_opacity_subtractive_witness :
    ((cwl_adjusted_lighting lmC (1 / 4)).pix 0 0).a =
      max ((lmC.pix 0 0).a - (1 - 1 / 4) * 255) 0 ∧
    ((cwl_adjusted_lighting lmC (1 / 4)).pix 0 0).a ≤
      ((cwl_adjusted_lighting lmC (3 / 4)).pix 0 0).a :=
  ⟨lighting_opacity_subtractive.1 lmC (1 / 4) 0 0 (by norm_num [lmC, solidCanvas])
      (by norm_num [lmC, solidCanvas]) (by norm_num),
   lighting_opacity_subtractive.2.1 lmC (1 / 4) (3 / 4) 0 0 (by norm_num [lmC, solidCanvas])
      (by norm_num [lmC, solidCanvas]) (by norm_num) (by norm_num)⟩

theorem tiled_fold_width (tk : Toolkit) (scaled : Img) (positions : List (ℕ × ℕ))
    (sw sh : ℕ) (acc : Img) :
    (positions.foldl (fun acc2 xy =>
        compositeAt tk acc2 scaled BlendOp.over (xy.1 * sw) (xy.2 * sh)) acc).width =
      acc.width := by
  induction positions generalizing acc with
  | nil => rfl
  | cons p rest ih =>
    exact (ih (compositeAt tk acc scaled BlendOp.over (p.1 * sw) (p.2 * sh))).trans rfl

theorem tiled_fold_height (tk : Toolkit) (scaled : Img) (positions : List (ℕ × ℕ))
    (sw sh : ℕ) (acc : Img) :
    (positions.foldl (fun acc2 xy =>
        compositeAt tk acc2 scaled BlendOp.over (xy.1 * sw) (xy.2 * sh)) acc).height =
      acc.height := by
  induction positions generalizing acc with
  | nil => rfl
  | cons p rest ih =>
    exact (ih (compositeAt tk acc scaled BlendOp.over (p.1 * sw) (p.2 * sh))).trans rfl

/-- Claim C1 (amended): whenever the truncated scaled texture dimensions
are at least 1 and the targets are positive, create_tiled_texture returns
a buffer of exactly target_width by target_height.  The truncation has no
1 by 1 lower clamp, so the side conditions are genuinely needed. -/
theorem create_tiled_texture_dims_exact (tk : Toolkit) (texture : Img)
    (target_width target_height : ℕ) (scale_factor : ℚ)
    (hw : 0 < target_width) (hh : 0 < target_height)
    (hsw : 1 ≤ scaledDim texture.width scale_factor)
    (hsh : 1 ≤ scaledDim texture.height scale_factor) :
    (create_tiled_texture tk texture target_width target_height scale_factor).map Img.width =
      some target_width ∧
    (create_tiled_texture tk texture target_width target_height scale_factor).map Img.height =
      some target_height := by
  simp only [create_tiled_texture]
  rw [if_neg (by push_neg; omega)]
  constructor
  · rw [Option.map_some']
    refine congrArg some ?_
    show min target_width _ = target_width
    rw [tiled_fold_width]
    exact min_self _
  · rw [Option.map_some']
    refine congrArg some ?_
    show min target_height _ = target_height
    rw [tiled_fold_height]
    exact min_self _

/-- Claim C1 counterexample: a 10 by 10 texture at scale factor 1/100
truncates to a 0 by 0 scaled texture, and the call fails (returns no
buffer at all) instead of producing a 5 by 5 result. -/
theorem create_tiled_texture_small_scale_fails :
    create_tiled_texture tk0 tex10 5 5 (1 / 100) = none := by
  have h : scaledDim tex10.width (1 / 100) = 0 := by
    unfold scaledDim
    have hf : ⌊((tex10.width : ℚ)) * (1 / 100)⌋ = 0 := by
      rw [Int.floor_eq_iff]
      norm_num [tex10, solidCanvas]
    rw [hf]
    rfl
  simp only [create_tiled_texture]
  rw [if_pos (Or.inl h)]

/-- Claim C1 witness: exact 5 by 7 output dimensions for a 10 by 10
texture at scale factor 1. -/
theorem create_tiled_texture_dims_exact_witness :
    (create_tiled_texture tk0 tex10 5 7 1).map Img.width = some 5 ∧
    (create_tiled_texture tk0 tex10 5 7 1).map Img.height = some 7 :=
  create_tiled_texture_dims_exact tk0 tex10 5 7 1 (by norm_num) (by norm_num)
    (by norm_num [scaledDim, tex10, solidCanvas])
    (by norm_num [scaledDim, tex10, solidCanvas])

/-- Claim C3 (amended): the combined-effects entry point validates only
the presence of the three images: if any is missing it returns failure
immediately with no stage run and the cache untouched; white_point at or
below black_point and nonpositive scale factors are not validated, and the
pipeline starts regardless of those parameters. -/
theorem ace_validates_presence_only :
    (∀ (tk : Toolkit) (model : Img → Img) (hash : Img → ℕ) (cache : Cache)
      (texture_image background_image mask_image : Option Img)
      (texture_scale : ℚ) (tile_texture : Bool)
      (displacement_strength blur_radius lighting_strength black_point white_point gamma
        contrast lightness detail_strength : ℚ),
      texture_image = none ∨ background_image = none ∨ mask_image = none →
      apply_combined_effects tk model hash cache texture_image background_image mask_image
          texture_scale tile_texture displacement_strength blur_radius lighting_strength
          black_point white_point gamma contrast lightness detail_strength =
        ⟨[], none, cache⟩) ∧
    (∀ (tk : Toolkit) (model : Img → Img) (hash : Img → ℕ) (cache : Cache)
      (texture background mask : Img) (texture_scale : ℚ)
      (displacement_strength blur_radius lighting_strength black_point white_point gamma
        contrast lightness detail_strength : ℚ),
      (apply_combined_effects tk model hash cache (some texture) (some background) (some mask)
          texture_scale false displacement_strength blur_radius lighting_strength
          black_point white_point gamma contrast lightness detail_strength).stages =
        [Stage.depth, Stage.displacement, Stage.lighting, Stage.composition]) := by
  constructor
  · intro tk model hash cache t2 bg2 m2 scale tile dstr blur ls bp wp g c l ds h
    rcases h with h | h | h
    · subst h; cases bg2 <;> cases m2 <;> rfl
    · subst h; cases t2 <;> cases m2 <;> rfl
    · subst h; cases t2 <;> cases bg2 <;> rfl
  · intro tk model hash cache texture background mask scale dstr blur ls bp wp g c l ds
    rfl

/-- Claim C3 counterexample: with white_point equal to black_point (50 and
50), a condition the claim says must be rejected before the pipeline
starts, every stage runs and a composite is produced. -/
theorem ace_runs_despite_bad_levels :
    (apply_combined_effects tk0 model0 hash0 [] (some texC) (some bgC) (some maskC)
        1 false 0 0 (1 / 2) 50 50 1 1 0 (1 / 2)).stages =
      [Stage.depth, Stage.displacement, Stage.lighting, Stage.composition] ∧
    (apply_combined_effects tk0 model0 hash0 [] (some texC) (some bgC) (some maskC)
        1 false 0 0 (1 / 2) 50 50 1 1 0 (1 / 2)).result.isSome = true :=
  ⟨rfl, rfl⟩

/-- Claim C3 witness: a missing texture aborts before any stage, and a
complete input set starts the pipeline. -/
theorem ace_validates_presence_only_witness :
    apply_combined_effects tk0 model0 hash0 [] none (some bgC) (some maskC)
        1 false 0 0 (1 / 2) 0 100 1 1 0 (1 / 2) = ⟨[], none, []⟩ ∧
    (apply_combined_effects tk0 model0 hash0 [] (some texC) (some bgC) (some maskC)
        1 false 0 0 (1 / 2) 0 100 1 1 0 (1 / 2)).stages =
      [Stage.depth, Stage.displacement, Stage.lighting, Stage.composition] :=
  ⟨ace_validates_presence_only.1 tk0 model0 hash0 [] none (some bgC) (some maskC)
      1 false 0 0 (1 / 2) 0 100 1 1 0 (1 / 2) (Or.inl rfl),
   ace_validates_presence_only.2 tk0 model0 hash0 [] texC bgC maskC
      1 0 0 (1 / 2) 0 100 1 1 0 (1 / 2)⟩

end P5
